import Mathlib

/-!
Shallow embedding of `src/py_modules/decky_terminal/terminal.py` (class
`Terminal`), the single-session PTY bridge, together with theorems settling
the specification claims about it.

Modelling conventions:
* Machine-level byte streams are `List Nat` (each element a byte value).
* The `collections.deque` scrollback with `maxlen=4096` is a `List Nat`
  mutated by `dequeAppend`, which mirrors one `deque.append` call.
* Side effects on the outside world (websocket sends, signals, fd closes,
  PTY ioctls and writes) are recorded as an `Action` trace; Python
  exceptions are a `Bool` "raised" flag threaded alongside the partially
  mutated state (Python keeps mutations made before an exception).
* A Python attribute that has a class-level annotation but may never be
  assigned (`master_fd`, `slave_fd`) is an `Option Nat`; `none` means the
  attribute was never set, and reading it raises `AttributeError`.
* The asyncio child process is `Process`: `pid` and `returncode` are the
  fields the code reads; `osAlive` is the OS-level truth of whether the
  child is running, which the code cannot read directly (the event loop
  sets `returncode` when it reaps the child, and a recorded `returncode`
  implies the child is no longer running).
-/

namespace DeckyTerminal

/-- Child process as held in `self.process`: its pid, the `returncode`
observation available to the code (`none` until the event loop reaps the
child), and the OS-level liveness `osAlive`. -/
structure Process where
  pid : Nat
  returncode : Option Int
  osAlive : Bool
deriving DecidableEq, Repr

/-- A subscriber websocket (`WebSocketServerProtocol`): an opaque identity
plus the `closed` state its `closed` property reports. -/
structure Sub where
  id : Nat
  closed : Bool
deriving DecidableEq, Repr

/-- Observable side effects of the terminal code, recorded as a trace. -/
inductive Action where
  /-- Awaited `ws.send(data)` to the subscriber with this identity. -/
  | send (id : Nat) (data : List Nat)
  /-- The `await self.start()` call in `_process_subscriber`. -/
  | start
  /-- The `self.process.kill()` call delivering SIGKILL. -/
  | killSignal
  /-- A successful `os.close(fd)`. -/
  | closeFd (fd : Nat)
  /-- A call of the coroutine function `ws.close()` that is not awaited:
  the coroutine object is created and discarded, so no close handshake
  runs and the stream's `closed` state does not change. -/
  | closeNotAwaited (id : Nat)
  /-- The `fcntl.ioctl(fd, termios.TIOCSWINSZ, ...)` window-size update. -/
  | ioctlWinsize (fd : Nat) (rows cols : Nat)
  /-- Delivery of SIGWINCH by `self.process.send_signal(signal.SIGWINCH)`. -/
  | sigwinch
  /-- An `os.write(fd, data)` on the PTY master. -/
  | write (fd : Nat) (data : List Nat)
  /-- An `os.fsync(fd)` on the PTY master. -/
  | fsync (fd : Nat)
deriving DecidableEq, Repr

/-- State of one `Terminal` object (terminal.py lines 12-28). -/
structure Terminal where
  cmdline : String
  process : Option Process
  master_fd : Option Nat
  slave_fd : Option Nat
  /-- OS-level: the master fd is currently open (closing it twice raises). -/
  masterOpen : Bool
  /-- OS-level: the slave fd is currently open. -/
  slaveOpen : Bool
  subscribers : List Sub
  buffer : List Nat
  cols : Nat
  rows : Nat
deriving DecidableEq, Repr

/-- Default of the class attribute `cmdline` (terminal.py line 13). -/
def defaultCmdline : String := "/bin/bash"

/-- Constructor `__init__` (terminal.py lines 25-28): takes an optional
command line (kept only when not `None`), creates the empty scrollback
deque with `maxlen=4096`; every other attribute keeps its class default
(`process = None`, `subscribers = []`, `cols = 80`, `rows = 24`,
`master_fd`/`slave_fd` never assigned). -/
def mkTerminal (c : Option String) : Terminal :=
  { cmdline := c.getD defaultCmdline
    process := none
    master_fd := none
    slave_fd := none
    masterOpen := false
    slaveOpen := false
    subscribers := []
    buffer := []
    cols := 80
    rows := 24 }

/-- Predicate `_is_process_started` (terminal.py lines 165-169):
`False` when `self.process is None`, else `True`. -/
def Terminal._is_process_started (st : Terminal) : Bool :=
  st.process.isSome

/-- Predicate `_is_process_alive` (terminal.py lines 171-178): started and
no `returncode` recorded yet. -/
def Terminal._is_process_alive (st : Terminal) : Bool :=
  if !st._is_process_started then false
  else
    match st.process with
    | some p => p.returncode.isNone
    | none => false

/-- Predicate `_is_process_completed` (terminal.py lines 180-181). -/
def Terminal._is_process_completed (st : Terminal) : Bool :=
  !st._is_process_alive && st._is_process_started

/-- The dict returned by `serialize` (terminal.py lines 31-43): the two
boolean fields are always present; the `pid` key is present exactly when
`self.process is not None`, and the `exitcode` key exactly when
additionally `self.process.returncode is not None`. Optional keys are
`Option` fields. -/
structure Status where
  is_started : Bool
  is_completed : Bool
  pid : Option Nat
  exitcode : Option Int
deriving DecidableEq, Repr

/-- Method `serialize` (terminal.py lines 31-43). -/
def Terminal.serialize (st : Terminal) : Status :=
  { is_started := st._is_process_started
    is_completed := st._is_process_completed
    pid := st.process.map fun p => p.pid
    exitcode :=
      match st.process with
      | none => none
      | some p => p.returncode }

-- RING BUFFER ===========================================================

/-- Capacity of the scrollback deque (terminal.py line 28). -/
def bufferCapacity : Nat := 4096

/-- One `collections.deque.append(x)` on a deque with a `maxlen` bound:
when the deque is full the oldest (leftmost) element is evicted before
the new element is appended on the right. -/
def dequeAppend (maxlen : Nat) (buf : List Nat) (x : Nat) : List Nat :=
  if buf.length < maxlen then buf ++ [x] else buf.drop 1 ++ [x]

/-- Method `_put_buffer` (terminal.py lines 205-207): appends each byte of
`chars` to the scrollback deque in order. -/
def Terminal._put_buffer (st : Terminal) (chars : List Nat) : Terminal :=
  { st with buffer := chars.foldl (dequeAppend bufferCapacity) st.buffer }

/-- The last `n` bytes of a byte list (all of it when it is shorter). -/
def lastBytes (n : Nat) (l : List Nat) : List Nat :=
  l.drop (l.length - n)

theorem lastBytes_nil (n : Nat) : lastBytes n [] = [] := by
  simp [lastBytes]

theorem lastBytes_length (n : Nat) (l : List Nat) :
    (lastBytes n l).length = min l.length n := by
  simp only [lastBytes, List.length_drop]
  omega

theorem dequeAppend_lastBytes (m : Nat) (hm : 0 < m) (acc : List Nat) (x : Nat) :
    dequeAppend m (lastBytes m acc) x = lastBytes m (acc ++ [x]) := by
  by_cases h : acc.length < m
  · have h0 : acc.length - m = 0 := by omega
    have h1 : acc.length + 1 - m = 0 := by omega
    simp [dequeAppend, lastBytes, h0, h1, h, lastBytes_length]
  · have hlen : (lastBytes m acc).length = m := by
      rw [lastBytes_length]; omega
    have hcond : ¬ (lastBytes m acc).length < m := by omega
    have hle : acc.length + 1 - m ≤ acc.length := by omega
    rw [dequeAppend, if_neg hcond, lastBytes, lastBytes, List.drop_drop]
    rw [List.length_append, List.length_singleton,
      List.drop_append_of_le_length hle]
    congr 2
    omega

theorem foldl_dequeAppend_lastBytes (m : Nat) (hm : 0 < m)
    (acc chunk : List Nat) :
    chunk.foldl (dequeAppend m) (lastBytes m acc) = lastBytes m (acc ++ chunk) := by
  induction chunk generalizing acc with
  | nil => simp
  | cons x xs ih =>
    rw [List.foldl_cons, dequeAppend_lastBytes m hm, ih (acc ++ [x])]
    simp

theorem put_buffer_foldl_lastBytes (m : Nat) (hm : 0 < m)
    (acc : List Nat) (chunks : List (List Nat)) :
    chunks.foldl (fun b c => c.foldl (dequeAppend m) b) (lastBytes m acc) =
      lastBytes m (acc ++ chunks.flatten) := by
  induction chunks generalizing acc with
  | nil => simp
  | cons c cs ih =>
    rw [List.foldl_cons, foldl_dequeAppend_lastBytes m hm, ih (acc ++ c)]
    simp

/-- C2: for every sequence of byte chunks fed through `_put_buffer` on a
freshly constructed terminal, the scrollback snapshot equals the last
`min (total length) 4096` bytes of the concatenation of all chunks, in
original relative order (FIFO eviction of the oldest bytes). -/
theorem ring_buffer_retains_last_4096 (c : Option String)
    (chunks : List (List Nat)) :
    (chunks.foldl Terminal._put_buffer (mkTerminal c)).buffer =
        lastBytes bufferCapacity chunks.flatten ∧
      (chunks.foldl Terminal._put_buffer (mkTerminal c)).buffer.length =
        min chunks.flatten.length bufferCapacity := by
  have hfold : ∀ (st : Terminal) (cs : List (List Nat)),
      (cs.foldl Terminal._put_buffer st).buffer =
        cs.foldl (fun b c => c.foldl (dequeAppend bufferCapacity) b) st.buffer := by
    intro st cs
    induction cs generalizing st with
    | nil => rfl
    | cons c cs ih => rw [List.foldl_cons, List.foldl_cons, ih]; rfl
  have hcap : 0 < bufferCapacity := by decide
  have hbase : (mkTerminal c).buffer = lastBytes bufferCapacity [] := by
    simp [mkTerminal, lastBytes_nil]
  constructor
  · rw [hfold, hbase, put_buffer_foldl_lastBytes bufferCapacity hcap]
    simp
  · rw [hfold, hbase, put_buffer_foldl_lastBytes bufferCapacity hcap]
    simp [lastBytes_length]

-- RESIZE ================================================================

/-- Decimal ASCII rendering of a natural number, as Python `b'%d' % n`
produces for a nonnegative value. -/
def decBytes (n : Nat) : List Nat :=
  (Nat.toDigits 10 n).map Char.toNat

/-- The bytes of `b'\x1b[8;%d;%dt' % (rows, cols)` (terminal.py line 58):
ESC `[` `8` `;` decimal rows `;` decimal cols `t`. -/
def escapeSeq (rows cols : Nat) : List Nat :=
  [27, 91, 56, 59] ++ decBytes rows ++ [59] ++ decBytes cols ++ [116]

/-- Method `_change_pty_size` (terminal.py lines 60-66). Assigns
`self.rows` and `self.cols` FIRST; then evaluates
`if self.master_fd is not None:` — when the attribute was never assigned
this read raises `AttributeError` (the class body only annotates it) —
and performs the TIOCSWINSZ ioctl on the master fd. `ioctlRaises` is the
oracle for the offloaded `fcntl.ioctl` call raising `OSError`. The result
is (state after the call, action trace, whether an exception escaped). -/
def Terminal._change_pty_size (st : Terminal) (rows cols : Nat)
    (ioctlRaises : Bool) : Terminal × List Action × Bool :=
  let st1 := { st with rows := rows, cols := cols }
  match st1.master_fd with
  | none => (st1, [], true)
  | some fd =>
    if ioctlRaises then (st1, [], true)
    else (st1, [Action.ioctlWinsize fd rows cols], false)

/-- Method `change_window_size` (terminal.py lines 54-58). A no-op unless
the process is alive. Otherwise it runs `_change_pty_size` (whose
exception, if any, propagates); then line 57 evaluates
`await self.process.send_signal(signal.SIGWINCH)`:
`asyncio.subprocess.Process.send_signal` is a plain synchronous method,
so the signal IS delivered, but the method returns `None` and awaiting
`None` raises `TypeError`. The `await self._write_stdin(...)` on line 58
is therefore unreachable: the escape sequence is never written. -/
def Terminal.change_window_size (st : Terminal) (rows cols : Nat)
    (ioctlRaises : Bool) : Terminal × List Action × Bool :=
  if st._is_process_alive then
    let r := st._change_pty_size rows cols ioctlRaises
    if r.2.2 then r
    else (r.1, r.2.1 ++ [Action.sigwinch], true)
  else (st, [], false)

/-- A session whose process is alive (pid 1234, no exit code recorded),
with PTY fds 3 (master) and 4 (slave) open, default geometry 24 rows by
80 cols, empty scrollback, no subscribers. -/
def aliveState : Terminal :=
  { cmdline := defaultCmdline
    process := some { pid := 1234, returncode := none, osAlive := true }
    master_fd := some 3
    slave_fd := some 4
    masterOpen := true
    slaveOpen := true
    subscribers := []
    buffer := []
    cols := 80
    rows := 24 }

/-- C3: evaluation of `change_window_size 50 120` on an alive session with
a working ioctl. The stored geometry is updated and the ioctl and the
SIGWINCH delivery happen, but the call then raises (line 57 awaits the
`None` returned by the synchronous `send_signal`), and the escape
sequence `ESC [ 8 ; 50 ; 120 t` is never written to the PTY master —
contradicting the claim that the write follows the signal. -/
theorem change_window_size_divergence :
    aliveState.change_window_size 50 120 false =
      ({ aliveState with rows := 50, cols := 120 },
        [Action.ioctlWinsize 3 50 120, Action.sigwinch], true) ∧
      Action.write 3 (escapeSeq 50 120) ∉
        (aliveState.change_window_size 50 120 false).2.1 := by
  constructor
  · rfl
  · decide

/-- C4 counterexample: on an alive session with rows 24 and cols 80, a
resize to 50 by 120 whose device-level window-size ioctl fails (the call
raises, third component `true`) nevertheless leaves `rows = 50` and
`cols = 120`: the stored fields were assigned BEFORE the device
application, so they do not keep their previous values 24 and 80. -/
theorem resize_failure_keeps_new_dims_cex :
    (aliveState.change_window_size 50 120 true).2.2 = true ∧
      aliveState.rows = 24 ∧ aliveState.cols = 80 ∧
      (aliveState.change_window_size 50 120 true).1.rows = 50 ∧
      (aliveState.change_window_size 50 120 true).1.cols = 120 ∧
      (aliveState.change_window_size 50 120 true).1.rows ≠ aliveState.rows := by
  decide

/-- C4 amended: stored `rows`/`cols` are updated before the device-level
window-size application is attempted, so a resize whose device
application fails leaves them at the NEW requested values; the exception
propagates and the SIGWINCH and escape-sequence steps are skipped (empty
action trace). -/
theorem change_window_size_ioctl_failure_updates_dims (st : Terminal)
    (r c fd : Nat) (h1 : st._is_process_alive = true)
    (h2 : st.master_fd = some fd) :
    (st.change_window_size r c true).1.rows = r ∧
      (st.change_window_size r c true).1.cols = c ∧
      (st.change_window_size r c true).2 = ([], true) := by
  simp [Terminal.change_window_size, Terminal._change_pty_size, h1, h2]

/-- Witness for the amended C4 theorem at the concrete alive session. -/
theorem change_window_size_ioctl_failure_updates_dims_witness :
    aliveState._is_process_alive = true ∧
      aliveState.master_fd = some 3 ∧
      ((aliveState.change_window_size 50 120 true).1.rows = 50 ∧
        (aliveState.change_window_size 50 120 true).1.cols = 120 ∧
        (aliveState.change_window_size 50 120 true).2 = ([], true)) :=
  ⟨by decide, by decide,
    change_window_size_ioctl_failure_updates_dims aliveState 50 120 3
      (by decide) (by decide)⟩

-- KILL / SHUTDOWN =======================================================

/-- The `try` block of `_kill_process` (terminal.py lines 119-123):
`os.close(self.master_fd)` then `os.close(self.slave_fd)`. Reading a
never-assigned fd attribute raises `AttributeError`; closing an
already-closed fd raises `OSError`; either aborts the block (so a failure
on the master close skips the slave close). Result: (state, successful
close actions, whether the block raised). -/
def closeFdsTry (st : Terminal) : Terminal × List Action × Bool :=
  match st.master_fd with
  | none => (st, [], true)
  | some m =>
    if !st.masterOpen then (st, [], true)
    else
      let st1 := { st with masterOpen := false }
      match st1.slave_fd with
      | none => (st1, [Action.closeFd m], true)
      | some s =>
        if !st1.slaveOpen then (st1, [Action.closeFd m], true)
        else ({ st1 with slaveOpen := false },
          [Action.closeFd m, Action.closeFd s], false)

/-- Method `_kill_process` (terminal.py lines 115-123): when the process
is alive by the code's own predicate it calls `self.process.kill()`
(synchronous SIGKILL delivery; safe also on an exited-but-unreaped
child), which makes the OS-level process not alive; then the fd closes
run inside `try`/`except`, so their exception flag is swallowed and never
escapes. -/
def Terminal._kill_process (st : Terminal) : Terminal × List Action :=
  let r1 :=
    if st._is_process_alive then
      ({ st with process := st.process.map (fun p => { p with osAlive := false }) },
        [Action.killSignal])
    else (st, [])
  let r2 := closeFdsTry r1.1
  (r2.1, r1.2 ++ r2.2.1)

/-- Method `close_subscribers` (terminal.py lines 159-162): for each
registered subscriber whose stream is not closed it evaluates
`ws.close()`. `WebSocketServerProtocol.close` is a coroutine function and
the call is NOT awaited: the coroutine object is created and discarded,
so no close handshake is performed and every stream's `closed` state is
unchanged. The middle component is the state of the registered streams
after the call (identical to before); each discarded coroutine is
recorded as a `closeNotAwaited` action. -/
def Terminal.close_subscribers (st : Terminal) : Terminal × List Sub × List Action :=
  (st, st.subscribers,
    (st.subscribers.filter fun ws => !ws.closed).map
      fun ws => Action.closeNotAwaited ws.id)

/-- Method `shutdown` (terminal.py lines 49-52): `_kill_process()`, then
`close_subscribers()`, then `self.subscribers = []`. The middle component
is the post-call state of the streams that were registered when shutdown
began. No exception escapes any step. -/
def Terminal.shutdown (st : Terminal) : Terminal × List Sub × List Action :=
  let r1 := st._kill_process
  let r2 := r1.1.close_subscribers
  ({ r2.1 with subscribers := [] }, r2.2.1, r1.2 ++ r2.2.2)

/-- A started, alive session with one registered subscriber (id 7) whose
stream is open, and two bytes of scrollback. -/
def shutdownState : Terminal :=
  { cmdline := defaultCmdline
    process := some { pid := 1234, returncode := none, osAlive := true }
    master_fd := some 3
    slave_fd := some 4
    masterOpen := true
    slaveOpen := true
    subscribers := [{ id := 7, closed := false }]
    buffer := [104, 105]
    cols := 80
    rows := 24 }

/-- C5: evaluation of `shutdown()` on a started session with one open
registered subscriber. The started flag survives, the OS-level process is
no longer alive, the registry is emptied, and a second `shutdown()`
completes with its fd-close errors swallowed — but the registered stream
STILL REPORTS OPEN afterwards: `ws.close()` is a coroutine function
called without `await` (terminal.py line 162), so no close handshake ever
runs, contradicting the claim that every registered stream reports
closed. -/
theorem shutdown_divergence :
    (shutdownState.shutdown).1._is_process_started = true ∧
      ((shutdownState.shutdown).1.process.map fun p => p.osAlive) = some false ∧
      (shutdownState.shutdown).1.subscribers = [] ∧
      (shutdownState.shutdown).2.1 = [{ id := 7, closed := false }] ∧
      ({ id := 7, closed := false } : Sub).closed = false ∧
      ((shutdownState.shutdown).1.shutdown).1.subscribers = [] ∧
      ((shutdownState.shutdown).1.shutdown).1._is_process_started = true := by
  decide

/-- C10: `shutdown()` is frame-bounded: for every session state it leaves
the scrollback buffer, the stored rows and cols, the command line, and
the recorded process identity (pid and recorded exit code, hence the
entire `serialize()` snapshot) unchanged; only OS-level process liveness,
the PTY fd open flags, and the subscriber registry can change. -/
theorem closeFdsTry_frame (t : Terminal) :
    (closeFdsTry t).1.buffer = t.buffer ∧
      (closeFdsTry t).1.rows = t.rows ∧
      (closeFdsTry t).1.cols = t.cols ∧
      (closeFdsTry t).1.cmdline = t.cmdline ∧
      (closeFdsTry t).1.process = t.process ∧
      (closeFdsTry t).1.subscribers = t.subscribers := by
  cases hm : t.master_fd <;> cases hs : t.slave_fd <;>
    cases ho : t.masterOpen <;> cases hp : t.slaveOpen <;>
      simp [closeFdsTry, hm, hs, ho, hp]

theorem serialize_eq_of_process_eq (a b : Terminal) (h : a.process = b.process) :
    a.serialize = b.serialize := by
  simp [Terminal.serialize, Terminal._is_process_started,
    Terminal._is_process_completed, Terminal._is_process_alive, h]

theorem serialize_osAlive_irrel (t : Terminal) :
    ({ t with process := t.process.map (fun p => { p with osAlive := false }) }
        : Terminal).serialize = t.serialize := by
  cases hp : t.process with
  | none =>
    simp [Terminal.serialize, Terminal._is_process_started,
      Terminal._is_process_completed, Terminal._is_process_alive, hp]
  | some p =>
    cases hrc : p.returncode <;>
      simp [Terminal.serialize, Terminal._is_process_started,
        Terminal._is_process_completed, Terminal._is_process_alive, hp, hrc]

theorem kill_process_frame (t : Terminal) :
    (t._kill_process).1.buffer = t.buffer ∧
      (t._kill_process).1.rows = t.rows ∧
      (t._kill_process).1.cols = t.cols ∧
      (t._kill_process).1.cmdline = t.cmdline ∧
      (t._kill_process).1.subscribers = t.subscribers ∧
      ((t._kill_process).1.process.map fun p => p.pid) =
        (t.process.map fun p => p.pid) ∧
      ((t._kill_process).1.process.bind fun p => p.returncode) =
        (t.process.bind fun p => p.returncode) ∧
      (t._kill_process).1.serialize = t.serialize := by
  by_cases ha : t._is_process_alive = true
  · have hk : (t._kill_process).1 =
        (closeFdsTry
          { t with process := t.process.map (fun p => { p with osAlive := false }) }).1 := by
      simp [Terminal._kill_process, ha]
    obtain ⟨c1, c2, c3, c4, c5, c6⟩ := closeFdsTry_frame
      { t with process := t.process.map (fun p => { p with osAlive := false }) }
    rw [hk]
    refine ⟨c1, c2, c3, c4, c6, ?_, ?_, ?_⟩
    · rw [c5]; cases t.process <;> simp
    · rw [c5]; cases t.process <;> simp
    · rw [serialize_eq_of_process_eq _ _ c5, serialize_osAlive_irrel]
  · have hk : (t._kill_process).1 = (closeFdsTry t).1 := by
      simp [Terminal._kill_process, ha]
    obtain ⟨c1, c2, c3, c4, c5, c6⟩ := closeFdsTry_frame t
    rw [hk]
    exact ⟨c1, c2, c3, c4, c6, by rw [c5], by rw [c5],
      serialize_eq_of_process_eq _ _ c5⟩

theorem shutdown_frame (st : Terminal) :
    (st.shutdown).1.buffer = st.buffer ∧
      (st.shutdown).1.rows = st.rows ∧
      (st.shutdown).1.cols = st.cols ∧
      (st.shutdown).1.cmdline = st.cmdline ∧
      ((st.shutdown).1.process.map fun p => p.pid) =
        (st.process.map fun p => p.pid) ∧
      ((st.shutdown).1.process.bind fun p => p.returncode) =
        (st.process.bind fun p => p.returncode) ∧
      (st.shutdown).1.serialize = st.serialize := by
  obtain ⟨k1, k2, k3, k4, k5, k6, k7, k8⟩ := kill_process_frame st
  have hsh : (st.shutdown).1 = { (st._kill_process).1 with subscribers := [] } := by
    simp [Terminal.shutdown, Terminal.close_subscribers]
  have hser : ∀ v : Terminal, ({ v with subscribers := [] } : Terminal).serialize =
      v.serialize := by
    intro v
    simp [Terminal.serialize, Terminal._is_process_started,
      Terminal._is_process_completed, Terminal._is_process_alive]
  rw [hsh]
  exact ⟨k1, k2, k3, k4, by simpa using k6, by simpa using k7,
    by rw [hser]; exact k8⟩

-- SUBSCRIBER REGISTRY ===================================================

/-- Method `is_subscriber` (terminal.py lines 132-137):
`self.subscribers.index(ws)` succeeds exactly when `ws` is in the list
(`ValueError` is caught and turned into `False`). -/
def Terminal.is_subscriber (st : Terminal) (ws : Sub) : Bool :=
  st.subscribers.contains ws

/-- Method `add_subscriber` (terminal.py lines 127-130): when `ws` is not
yet registered it is appended to `subscribers` and `_process_subscriber(ws)`
is spawned with `asyncio.ensure_future`. The second component lists the
subscribers for which a service loop was spawned by this call. -/
def Terminal.add_subscriber (st : Terminal) (ws : Sub) : Terminal × List Sub :=
  if st.is_subscriber ws then (st, [])
  else ({ st with subscribers := st.subscribers ++ [ws] }, [ws])

/-- Method `_remove_subscriber` (terminal.py lines 140-145), internal
only: when `ws` is registered it is removed (`list.remove` drops the
first occurrence) and, when its stream is not closed, the coroutine
`ws.close()` is called WITHOUT `await` (so the stream does not actually
close; the discarded coroutine is recorded as `closeNotAwaited`). -/
def Terminal._remove_subscriber (st : Terminal) (ws : Sub) : Terminal × List Action :=
  if st.is_subscriber ws then
    ({ st with subscribers := st.subscribers.erase ws },
      if !ws.closed then [Action.closeNotAwaited ws.id] else [])
  else (st, [])

/-- The `for ws in self.subscribers:` pass of `broadcast_subscribers`
(terminal.py lines 149-154): closed subscribers are collected (first
component, in iteration order), open ones are sent `data` (second
component, in iteration order). -/
def broadcastPass (data : List Nat) : List Sub → List Sub × List Action
  | [] => ([], [])
  | ws :: rest =>
    let r := broadcastPass data rest
    if ws.closed then (ws :: r.1, r.2)
    else (r.1, Action.send ws.id data :: r.2)

/-- Method `broadcast_subscribers` (terminal.py lines 148-157): the pass
above, then `_remove_subscriber` on each collected closed subscriber. The
trace is the sends of the pass followed by any actions of the removals. -/
def Terminal.broadcast_subscribers (st : Terminal) (data : List Nat) :
    Terminal × List Action :=
  let p := broadcastPass data st.subscribers
  let fin := p.1.foldl
    (fun acc ws =>
      let r := acc.1._remove_subscriber ws
      (r.1, acc.2 ++ r.2))
    (st, [])
  (fin.1, p.2 ++ fin.2)

theorem broadcastPass_fst (data : List Nat) (subs : List Sub) :
    (broadcastPass data subs).1 = subs.filter fun ws => ws.closed := by
  induction subs with
  | nil => rfl
  | cons ws rest ih =>
    cases h : ws.closed <;> simp [broadcastPass, h, ih]

theorem broadcastPass_snd (data : List Nat) (subs : List Sub) :
    (broadcastPass data subs).2 =
      (subs.filter fun ws => !ws.closed).map fun ws => Action.send ws.id data := by
  induction subs with
  | nil => rfl
  | cons ws rest ih =>
    cases h : ws.closed <;> simp [broadcastPass, h, ih]

theorem foldl_erase_cons (ws : Sub) (cl : List Sub) (hws : ws ∉ cl)
    (acc : List Sub) :
    cl.foldl (fun l c => l.erase c) (ws :: acc) =
      ws :: cl.foldl (fun l c => l.erase c) acc := by
  induction cl generalizing acc with
  | nil => rfl
  | cons c cs ih =>
    have hne : ws ≠ c := fun h => hws (h ▸ List.mem_cons_self c cs)
    have h1 : (ws :: acc).erase c = ws :: acc.erase c :=
      List.erase_cons_tail (by simp [hne])
    have h2 : ws ∉ cs := fun h => hws (List.mem_cons_of_mem c h)
    rw [List.foldl_cons, h1, List.foldl_cons, ih h2]

theorem foldl_erase_closed_filter (subs : List Sub) (hnd : subs.Nodup) :
    (subs.filter fun ws => ws.closed).foldl (fun l c => l.erase c) subs =
      subs.filter fun ws => !ws.closed := by
  induction subs with
  | nil => rfl
  | cons ws rest ih =>
    rw [List.nodup_cons] at hnd
    obtain ⟨hmem, hnd⟩ := hnd
    cases h : ws.closed with
    | true =>
      have hfil : (ws :: rest).filter (fun w => w.closed) =
          ws :: rest.filter fun w => w.closed := by simp [h]
      rw [hfil, List.foldl_cons, List.erase_cons_head]
      have hmemf : ∀ c ∈ rest.filter (fun w => w.closed), c ∈ rest := by
        intro c hc; exact (List.mem_filter.mp hc).1
      have : (rest.filter fun w => w.closed).foldl
          (fun l c => l.erase c) rest = rest.filter fun w => !w.closed := ih hnd
      rw [this]
      simp [h]
    | false =>
      have hfil : (ws :: rest).filter (fun w => w.closed) =
          rest.filter fun w => w.closed := by simp [h]
      have hws : ws ∉ rest.filter fun w => w.closed := by
        intro hc; exact hmem (List.mem_filter.mp hc).1
      rw [hfil, foldl_erase_cons ws _ hws rest, ih hnd]
      simp [h]

theorem remove_fold_subscribers (st : Terminal) (cl : List Sub) :
    ((cl.foldl
        (fun acc ws =>
          let r := acc.1._remove_subscriber ws
          (r.1, acc.2 ++ r.2))
        (st, ([] : List Action))).1).subscribers =
      cl.foldl (fun l c => l.erase c) st.subscribers := by
  suffices h : ∀ (u : Terminal) (a : List Action),
      ((cl.foldl
          (fun acc ws =>
            let r := acc.1._remove_subscriber ws
            (r.1, acc.2 ++ r.2))
          (u, a)).1).subscribers =
        cl.foldl (fun l c => l.erase c) u.subscribers by
    exact h st []
  induction cl with
  | nil => intro u a; rfl
  | cons c cs ih =>
    intro u a
    rw [List.foldl_cons]
    show ((cs.foldl
        (fun acc ws =>
          let r := acc.1._remove_subscriber ws
          (r.1, acc.2 ++ r.2))
        ((u._remove_subscriber c).1, a ++ (u._remove_subscriber c).2)).1).subscribers = _
    rw [ih, List.foldl_cons]
    congr 1
    unfold Terminal._remove_subscriber
    split
    · rfl
    · next hc =>
      have hmem : c ∉ u.subscribers := by
        simpa [Terminal.is_subscriber] using hc
      simp [List.erase_of_not_mem hmem]

theorem remove_fold_actions (cl : List Sub)
    (hcl : ∀ ws ∈ cl, ws.closed = true) (u : Terminal) (a : List Action) :
    (cl.foldl
        (fun acc ws =>
          let r := acc.1._remove_subscriber ws
          (r.1, acc.2 ++ r.2))
        (u, a)).2 = a := by
  induction cl generalizing u a with
  | nil => rfl
  | cons c cs ih =>
    have hc : c.closed = true := hcl c (List.mem_cons_self c cs)
    have hcs : ∀ ws ∈ cs, ws.closed = true := fun ws h =>
      hcl ws (List.mem_cons_of_mem c h)
    rw [List.foldl_cons]
    show (cs.foldl
        (fun acc ws =>
          let r := acc.1._remove_subscriber ws
          (r.1, acc.2 ++ r.2))
        ((u._remove_subscriber c).1, a ++ (u._remove_subscriber c).2)).2 = a
    have hr : (u._remove_subscriber c).2 = [] := by
      unfold Terminal._remove_subscriber
      split <;> simp [hc]
    rw [hr, List.append_nil]
    exact ih hcs _ a

theorem broadcast_subscribers_trace (st : Terminal) (data : List Nat) :
    (st.broadcast_subscribers data).2 =
      (st.subscribers.filter fun ws => !ws.closed).map
        fun ws => Action.send ws.id data := by
  have hclosed : ∀ ws ∈ (broadcastPass data st.subscribers).1, ws.closed = true := by
    rw [broadcastPass_fst]
    intro ws h
    exact (List.mem_filter.mp h).2
  show (broadcastPass data st.subscribers).2 ++
      ((broadcastPass data st.subscribers).1.foldl
        (fun acc ws =>
          let r := acc.1._remove_subscriber ws
          (r.1, acc.2 ++ r.2))
        (st, [])).2 = _
  rw [remove_fold_actions _ hclosed st [], List.append_nil, broadcastPass_snd]

/-- C6: for every registry whose subscriber list has no duplicates (the
invariant `add_subscriber` maintains) and every payload,
`broadcast_subscribers` sends the payload to exactly the subscribers
whose stream is open, in registry order, and afterwards the registry
holds exactly the open subscribers — every subscriber found closed during
the pass received nothing and was removed, without affecting delivery to
the open ones. -/
theorem broadcast_delivers_and_prunes (st : Terminal) (data : List Nat)
    (hnd : st.subscribers.Nodup) :
    (st.broadcast_subscribers data).2 =
      ((st.subscribers.filter fun ws => !ws.closed).map
        fun ws => Action.send ws.id data) ∧
      (st.broadcast_subscribers data).1.subscribers =
        st.subscribers.filter fun ws => !ws.closed := by
  constructor
  · exact broadcast_subscribers_trace st data
  · show (((broadcastPass data st.subscribers).1.foldl
        (fun acc ws =>
          let r := acc.1._remove_subscriber ws
          (r.1, acc.2 ++ r.2))
        (st, [])).1).subscribers = _
    rw [remove_fold_subscribers, broadcastPass_fst,
      foldl_erase_closed_filter st.subscribers hnd]

/-- A registry with two open subscribers (ids 1 and 3) and one closed
subscriber (id 2), used to witness the broadcast theorem at the spec's
two-subscriber scenario. -/
def broadcastState : Terminal :=
  { cmdline := defaultCmdline
    process := some { pid := 1234, returncode := none, osAlive := true }
    master_fd := some 3
    slave_fd := some 4
    masterOpen := true
    slaveOpen := true
    subscribers := [{ id := 1, closed := false }, { id := 2, closed := true },
      { id := 3, closed := false }]
    buffer := []
    cols := 80
    rows := 24 }

/-- Witness for the broadcast theorem: payload `hi` is delivered to both
open subscribers, and the closed one is pruned. -/
theorem broadcast_delivers_and_prunes_witness :
    broadcastState.subscribers.Nodup ∧
      ((broadcastState.broadcast_subscribers [104, 105]).2 =
        ((broadcastState.subscribers.filter fun ws => !ws.closed).map
          fun ws => Action.send ws.id [104, 105]) ∧
      (broadcastState.broadcast_subscribers [104, 105]).1.subscribers =
        broadcastState.subscribers.filter fun ws => !ws.closed) :=
  ⟨by decide, broadcast_delivers_and_prunes broadcastState [104, 105] (by decide)⟩

theorem add_subscriber_nodup (st : Terminal) (ws : Sub)
    (h : st.subscribers.Nodup) :
    ((st.add_subscriber ws).1).subscribers.Nodup := by
  unfold Terminal.add_subscriber
  split
  · exact h
  · next hc =>
    have hmem : ws ∉ st.subscribers := by
      simpa [Terminal.is_subscriber, List.elem_iff] using hc
    simp [List.nodup_append, h, hmem]

theorem foldl_add_subscriber_nodup (l : List Sub) (st : Terminal)
    (h : st.subscribers.Nodup) :
    ((l.foldl (fun s w => (s.add_subscriber w).1) st).subscribers).Nodup := by
  induction l generalizing st with
  | nil => exact h
  | cons w l ih => exact ih _ (add_subscriber_nodup st w h)

/-- C8: attaching the same subscriber twice leaves the registry with
exactly one entry for it — the second attach changes nothing (returns the
same registry and spawns no service loop) — and across any sequence of
attach calls from a duplicate-free registry the registry stays
duplicate-free, so a subscriber belongs to it at most once. -/
theorem attach_twice_single_entry (st : Terminal) (ws : Sub)
    (h : st.subscribers.count ws ≤ 1) :
    ((((st.add_subscriber ws).1).add_subscriber ws).1).subscribers.count ws = 1 ∧
      ((st.add_subscriber ws).1).add_subscriber ws = ((st.add_subscriber ws).1, []) ∧
      ∀ l : List Sub, st.subscribers.Nodup →
        ((l.foldl (fun s w => (s.add_subscriber w).1) st).subscribers).Nodup := by
  have hmem1 : ws ∈ ((st.add_subscriber ws).1).subscribers := by
    unfold Terminal.add_subscriber
    split
    · next hc => simpa [Terminal.is_subscriber, List.elem_iff] using hc
    · simp
  have hcount1 : ((st.add_subscriber ws).1).subscribers.count ws = 1 := by
    unfold Terminal.add_subscriber
    split
    · next hc =>
      have hm : ws ∈ st.subscribers := by
        simpa [Terminal.is_subscriber, List.elem_iff] using hc
      have hpos : 0 < st.subscribers.count ws := List.count_pos_iff.mpr hm
      show st.subscribers.count ws = 1
      omega
    · next hc =>
      have hm : ws ∉ st.subscribers := by
        simpa [Terminal.is_subscriber, List.elem_iff] using hc
      simp [List.count_append, List.count_eq_zero_of_not_mem hm]
  have hsub : ∀ u : Terminal, u.is_subscriber ws = true → u.add_subscriber ws = (u, []) := by
    intro u hu
    simp [Terminal.add_subscriber, hu]
  have hc1 : ((st.add_subscriber ws).1).is_subscriber ws = true := by
    simp [Terminal.is_subscriber, List.elem_iff, hmem1]
  refine ⟨?_, hsub _ hc1, fun l hn => foldl_add_subscriber_nodup l st hn⟩
  rw [hsub _ hc1]
  exact hcount1

/-- Witness for the attach idempotence theorem on a fresh session and
subscriber id 7. -/
theorem attach_twice_single_entry_witness :
    (mkTerminal none).subscribers.count { id := 7, closed := false } ≤ 1 ∧
      (((((mkTerminal none).add_subscriber { id := 7, closed := false }).1).add_subscriber
          { id := 7, closed := false }).1).subscribers.count
          { id := 7, closed := false } = 1 ∧
      (((mkTerminal none).add_subscriber { id := 7, closed := false }).1).add_subscriber
          { id := 7, closed := false } =
        ((((mkTerminal none).add_subscriber { id := 7, closed := false }).1), []) ∧
      ∀ l : List Sub, (mkTerminal none).subscribers.Nodup →
        ((l.foldl (fun s w => (s.add_subscriber w).1) (mkTerminal none)).subscribers).Nodup :=
  ⟨by decide,
    attach_twice_single_entry (mkTerminal none) { id := 7, closed := false } (by decide)⟩

-- SUBSCRIBER SERVICE LOOP ===============================================

/-- The handshake of `_process_subscriber` (terminal.py lines 70-73), the
part that runs before the input-forwarding receive loop:
`await ws.send(bytes(self.buffer))` — the full scrollback snapshot as one
binary message — then `if not self._is_process_started(): await
self.start()`. The subsequent `while not ws.closed` loop only forwards
subscriber input to the PTY and is not needed by the claims. -/
def Terminal._process_subscriber_handshake (st : Terminal) (ws : Sub) : List Action :=
  Action.send ws.id st.buffer ::
    (if st._is_process_started then [] else [Action.start])

/-- C1: for every session state and newly attached subscriber, the first
message sent to that subscriber is exactly the current scrollback
snapshot as a single binary message (even when the buffer is empty and
when no process has started), `start()` is triggered by the handshake
exactly when no process has ever been started, and `add_subscriber`
spawns the service loop exactly for a not-yet-registered subscriber. -/
theorem subscriber_first_message_is_snapshot (st : Terminal) (ws : Sub) :
    (st._process_subscriber_handshake ws).head? =
        some (Action.send ws.id st.buffer) ∧
      (Action.start ∈ st._process_subscriber_handshake ws ↔
        st._is_process_started = false) ∧
      (st.add_subscriber ws).2 =
        (if st.is_subscriber ws then [] else [ws]) := by
  refine ⟨rfl, ?_, ?_⟩
  · cases h : st._is_process_started <;>
      simp [Terminal._process_subscriber_handshake, h]
  · unfold Terminal.add_subscriber
    split <;> simp_all

/-- C9: the `serialize()` snapshot always carries the started and
completed flags; its `pid` key is present exactly when a process has ever
been created, its `exitcode` key exactly when an exit code has been
recorded; `is_started` is true exactly when a process has ever been
created, and `is_completed` exactly when started with an exit code
recorded. -/
theorem serialize_status_fields (st : Terminal) :
    (st.serialize).is_started = st.process.isSome ∧
      ((st.serialize).pid.isSome ↔ st.process.isSome = true) ∧
      ((st.serialize).exitcode.isSome ↔
        (st.process.bind fun p => p.returncode).isSome = true) ∧
      (st.serialize).is_completed =
        (st._is_process_started && (st.process.bind fun p => p.returncode).isSome) ∧
      (st.serialize).pid = (st.process.map fun p => p.pid) ∧
      (st.serialize).exitcode = (st.process.bind fun p => p.returncode) := by
  cases hp : st.process with
  | none =>
    simp [Terminal.serialize, Terminal._is_process_started,
      Terminal._is_process_completed, Terminal._is_process_alive, hp]
  | some p =>
    cases hrc : p.returncode <;>
      simp [Terminal.serialize, Terminal._is_process_started,
        Terminal._is_process_completed, Terminal._is_process_alive, hp, hrc]

-- OUTPUT PUMP ===========================================================

/-- Maximum chunk size of one PTY read: `os.read(self.master_fd, 50)`
(terminal.py line 189), so every read result has at most 50 bytes. -/
def readChunkSize : Nat := 50

/-- Method `_read_output` (terminal.py lines 188-193), given the outcome
`readRes` of the offloaded `os.read(self.master_fd, 50)` (`Except.error`
models the read raising `OSError`): on a nonempty read the bytes are
appended to the scrollback (`_put_buffer`) and then the SAME bytes are
handed to `broadcast_subscribers`; on an empty read nothing happens; on a
read error the exception propagates (third component `true`) with no
state change. -/
def Terminal._read_output (st : Terminal) (readRes : Except Unit (List Nat)) :
    Terminal × List Action × Bool :=
  match readRes with
  | .error _ => (st, [], true)
  | .ok output =>
    if output.length > 0 then
      let st1 := st._put_buffer output
      let r := st1.broadcast_subscribers output
      (r.1, r.2, false)
    else (st, [], false)

/-- Environment input for one iteration of the output pump loop:
`exitNow = some c` means the event loop reaps the child with exit code
`c` just before the iteration's liveness check; `readRes` is the outcome
the iteration's PTY read would produce. -/
structure LoopEvent where
  exitNow : Option Int
  readRes : Except Unit (List Nat)

/-- External transition: the event loop records the child's exit code
(once; it also means the OS process is gone). -/
def applyExit (ev : LoopEvent) (st : Terminal) : Terminal :=
  match ev.exitNow, st.process with
  | some code, some p =>
    if p.returncode.isNone then
      { st with process := some { p with returncode := some code, osAlive := false } }
    else st
  | _, _ => st

/-- Method `_read_output_loop` (terminal.py lines 195-203), driven by a
finite prefix of environment inputs: while `_is_process_alive()` holds
the loop runs `_read_output` inside `try`/`except` (a raised read error
is logged and swallowed and the loop continues); once the liveness check
fails the loop ends immediately, ignoring all remaining inputs. -/
def Terminal._read_output_loop (st : Terminal) :
    List LoopEvent → Terminal × List Action
  | [] => (st, [])
  | ev :: rest =>
    let st1 := applyExit ev st
    if st1._is_process_alive then
      let r1 := st1._read_output ev.readRes
      let r2 := r1.1._read_output_loop rest
      (r2.1, r1.2.1 ++ r2.2)
    else (st1, [])

theorem remove_fold_buffer (cl : List Sub) (u : Terminal) (a : List Action) :
    ((cl.foldl
        (fun acc ws =>
          let r := acc.1._remove_subscriber ws
          (r.1, acc.2 ++ r.2))
        (u, a)).1).buffer = u.buffer := by
  induction cl generalizing u a with
  | nil => rfl
  | cons c cs ih =>
    rw [List.foldl_cons]
    show ((cs.foldl
        (fun acc ws =>
          let r := acc.1._remove_subscriber ws
          (r.1, acc.2 ++ r.2))
        ((u._remove_subscriber c).1, a ++ (u._remove_subscriber c).2)).1).buffer = u.buffer
    rw [ih]
    unfold Terminal._remove_subscriber
    split <;> rfl

theorem broadcast_subscribers_buffer (st : Terminal) (data : List Nat) :
    (st.broadcast_subscribers data).1.buffer = st.buffer := by
  show (((broadcastPass data st.subscribers).1.foldl
      (fun acc ws =>
        let r := acc.1._remove_subscriber ws
        (r.1, acc.2 ++ r.2))
      (st, [])).1).buffer = st.buffer
  exact remove_fold_buffer _ st []

/-- C7: while the process is alive each pump iteration reads at most
`readChunkSize` bytes; a nonempty read is appended byte-by-byte to the
scrollback and the same bytes are fanned out to every open subscriber
with no exception; a read error leaves the state unchanged and the loop
continues with the remaining iterations; and as soon as the process is no
longer alive (here: the event loop reaps its exit) the loop ends at once,
ignoring every remaining input. -/
theorem read_output_loop_spec (st : Terminal) (out : List Nat)
    (rest : List LoopEvent) (code : Int) (rr : Except Unit (List Nat))
    (h1 : out ≠ []) (h2 : out.length ≤ readChunkSize)
    (h3 : st._is_process_alive = true) :
    (st._read_output (Except.ok out)).1.buffer =
        out.foldl (dequeAppend bufferCapacity) st.buffer ∧
      (st._read_output (Except.ok out)).2.1 =
        ((st.subscribers.filter fun ws => !ws.closed).map
          fun ws => Action.send ws.id out) ∧
      (st._read_output (Except.ok out)).2.2 = false ∧
      st._read_output_loop ({ exitNow := none, readRes := Except.error () } :: rest) =
        st._read_output_loop rest ∧
      st._read_output_loop ({ exitNow := some code, readRes := rr } :: rest) =
        (applyExit { exitNow := some code, readRes := rr } st, []) := by
  have hpos : out.length > 0 := List.length_pos.mpr h1
  have hro : st._read_output (Except.ok out) =
      (((st._put_buffer out).broadcast_subscribers out).1,
        ((st._put_buffer out).broadcast_subscribers out).2, false) := by
    simp [Terminal._read_output, hpos]
  refine ⟨?_, ?_, ?_, ?_, ?_⟩
  · rw [hro]
    show ((st._put_buffer out).broadcast_subscribers out).1.buffer = _
    rw [broadcast_subscribers_buffer]
    rfl
  · rw [hro]
    show ((st._put_buffer out).broadcast_subscribers out).2 = _
    rw [broadcast_subscribers_trace]
    rfl
  · rw [hro]
  · have happ : applyExit { exitNow := none, readRes := Except.error () } st = st := by
      cases st.process <;> rfl
    show (let st1 := applyExit { exitNow := none, readRes := Except.error () } st
      if st1._is_process_alive then
        let r1 := st1._read_output (Except.error ())
        let r2 := r1.1._read_output_loop rest
        (r2.1, r1.2.1 ++ r2.2)
      else (st1, [])) = st._read_output_loop rest
    rw [happ]
    simp only [h3, if_true]
    show ((st._read_output_loop rest).1,
      ([] : List Action) ++ (st._read_output_loop rest).2) = _
    simp
  · have hdead : (applyExit { exitNow := some code, readRes := rr } st)._is_process_alive
        = false := by
      cases hp : st.process with
      | none =>
        rw [Terminal._is_process_alive, Terminal._is_process_started, hp] at h3
        simp at h3
      | some p =>
        cases hrc : p.returncode with
        | some c =>
          rw [Terminal._is_process_alive, Terminal._is_process_started, hp] at h3
          simp [hrc] at h3
        | none =>
          simp [applyExit, hp, hrc, Terminal._is_process_alive,
            Terminal._is_process_started]
    show (let st1 := applyExit { exitNow := some code, readRes := rr } st
      if st1._is_process_alive then
        let r1 := st1._read_output rr
        let r2 := r1.1._read_output_loop rest
        (r2.1, r1.2.1 ++ r2.2)
      else (st1, [])) = _
    simp only [hdead]
    simp

/-- Witness for the output pump theorem: an alive session with two open
subscribers and one closed one, a two-byte read, and reaping with exit
code 9. -/
theorem read_output_loop_spec_witness :
    ([65, 66] : List Nat) ≠ [] ∧ ([65, 66] : List Nat).length ≤ readChunkSize ∧
      broadcastState._is_process_alive = true ∧
      ((broadcastState._read_output (Except.ok [65, 66])).1.buffer =
        ([65, 66] : List Nat).foldl (dequeAppend bufferCapacity) broadcastState.buffer ∧
      (broadcastState._read_output (Except.ok [65, 66])).2.1 =
        ((broadcastState.subscribers.filter fun ws => !ws.closed).map
          fun ws => Action.send ws.id [65, 66]) ∧
      (broadcastState._read_output (Except.ok [65, 66])).2.2 = false ∧
      broadcastState._read_output_loop
          ({ exitNow := none, readRes := Except.error () } :: []) =
        broadcastState._read_output_loop [] ∧
      broadcastState._read_output_loop
          ({ exitNow := some 9, readRes := Except.ok [] } :: []) =
        (applyExit { exitNow := some 9, readRes := Except.ok [] } broadcastState, [])) :=
  ⟨by decide, by decide, by decide,
    read_output_loop_spec broadcastState [65, 66] [] 9 (Except.ok [])
      (by decide) (by decide) (by decide)⟩

end DeckyTerminal
